import Mathlib

/-
  Formal model of the gym-registration gRPC service
  (source: src/client/grpc_client.js — the file contains both the example
  client and, appended from line 282 on, the full server implementation;
  line references below are into that file).

  Conventions of the shallow embedding:
  * JS strings are `String`; a "falsy" string field (proto3 default) is `""`.
  * Epoch-millisecond instants (JS `Date.getTime()`) are `Int`.
  * JS `Math.floor(x / n)` on safe integers is `Int.fdiv`, JS `%` is `Int.tmod`.
  * A proto3 `optional` field is `Option _`; `none` is "absent" (JS `undefined`).
  * gRPC error objects `{code, message}` are `GrpcError`; a handler that can
    mutate the database returns `State × Except GrpcError Resp`, one that
    cannot returns `Except GrpcError Resp`.
  * The Prisma-backed database is `State`: one list per table, in storage
    order (Prisma `findMany`/`findFirst` order).  `prisma.<t>.update` /
    `create` refresh the row's `updatedAt` column; the Prisma schema file is
    not under src/, so this `@updatedAt` behaviour is modelled from the spec
    ("leaves the entity unchanged except `updated_at`"): mutating handlers
    take the current time `now : Int` and write it into `updatedAt`.
  * `jwt.sign` / `jwt.verify` (external library, fixed process-wide secret)
    are an abstract environment `Env`: `verify` returns the decoded claims
    for exactly the structurally valid tokens.
-/

namespace GymGrpc

deriving instance DecidableEq for Except

/-- gRPC status codes used by the server (subset of the full enum). -/
inductive Status where
  | OK
  | INVALID_ARGUMENT
  | NOT_FOUND
  | ALREADY_EXISTS
  | UNAUTHENTICATED
  | INTERNAL
deriving DecidableEq, Repr

/-- A gRPC error object `{code, message}` as thrown / passed to `callback`. -/
structure GrpcError where
  code : Status
  message : String
deriving DecidableEq, Repr

/-- The JWT payload signed at login: `{ traineeId: trainee.id, email: trainee.email }`
(grpc_client.js line 395). -/
structure Claims where
  traineeId : String
  email : String
deriving DecidableEq, Repr

/-- The token-signing primitive (the `jsonwebtoken` library with the fixed
process secret `JWT_SECRET`): `verify` returns the decoded claims exactly for
the tokens that decode and pass signature/expiry verification. -/
structure Env where
  verify : String → Option Claims
  sign : Claims → String

/-- A wire field value (string, int32, or a raw epoch-ms date as stored). -/
inductive Value where
  | s (v : String)
  | i (v : Int)
  | d (v : Int)
deriving DecidableEq, Repr

-- ===========================================================================
-- Stored rows (Prisma tables)
-- ===========================================================================

/-- A stored `trainee` row. -/
structure Trainee where
  id : String
  name : String
  email : String
  password : String
  timezone : String
  createdAt : Int
  updatedAt : Int
deriving DecidableEq, Repr

/-- A stored `workout` row. -/
structure Workout where
  id : String
  name : String
  duration : Int
  description : String
  color : String
  createdAt : Int
  updatedAt : Int
deriving DecidableEq, Repr

/-- One availability entry of a routine (wire message `TimeSlot`). -/
structure TimeSlot where
  day : String
  start_time : String
  end_time : String
deriving DecidableEq, Repr

/-- A stored `routine` row.  In storage the availability list is the JSON
string `JSON.stringify(availability)`; `JSON.parse` is its exact inverse on
these values, so the row is modelled with the decoded list directly. -/
structure Routine where
  id : String
  userId : String
  availability : List TimeSlot
  createdAt : Int
  updatedAt : Int
deriving DecidableEq, Repr

/-- A stored `registration` row (`endTime` is nullable). -/
structure Registration where
  id : String
  eventId : String
  userId : String
  inviteeEmail : String
  startTime : Int
  endTime : Option Int
  status : String
  createdAt : Int
  updatedAt : Int
deriving DecidableEq, Repr

/-- The mutable server state: the database tables (in storage order) and the
in-memory revoked-token set `revokedTokens` (grpc_client.js line 312). -/
structure State where
  trainees : List Trainee
  workouts : List Workout
  routines : List Routine
  registrations : List Registration
  revoked : List String
deriving DecidableEq, Repr

-- ===========================================================================
-- Helper functions (grpc_client.js lines 318–365)
-- ===========================================================================

/-- `authenticateToken` (lines 318–341): missing-token check, then
revocation-set membership, then `jwt.verify`; each failure is thrown as an
`UNAUTHENTICATED` error object with its own message. -/
def authenticateToken (env : Env) (revoked : List String) (token : String) :
    Except GrpcError Claims :=
  if token = "" then
    .error ⟨Status.UNAUTHENTICATED, "Authorization token missing"⟩
  else if token ∈ revoked then
    .error ⟨Status.UNAUTHENTICATED, "Token is revoked"⟩
  else
    match env.verify token with
    | some claims => .ok claims
    | none => .error ⟨Status.UNAUTHENTICATED, "Invalid token"⟩

/-- The row fields of a full `trainee` row as a JS object (key order of the
Prisma model): the shape `formatTrainee` destructures. -/
def traineeFields (t : Trainee) : List (String × Value) :=
  [("id", .s t.id), ("name", .s t.name), ("email", .s t.email),
   ("password", .s t.password), ("timezone", .s t.timezone),
   ("createdAt", .d t.createdAt), ("updatedAt", .d t.updatedAt)]

/-- `formatTrainee` (lines 343–351): `const { password, ...rest } = trainee`
drops exactly the `password` key; the spread keeps every other key and the
literal adds `created_at` / `updated_at` aliases of the row timestamps. -/
def formatTrainee (t : Trainee) : List (String × Value) :=
  ((traineeFields t).filter (fun p => p.1 ≠ "password")) ++
    [("created_at", .d t.createdAt), ("updated_at", .d t.updatedAt)]

/-- The redaction property of a wire object: no `password` key. -/
def noPasswordKey (fields : List (String × Value)) : Prop :=
  "password" ∉ fields.map Prod.fst

/-- Wire `google.protobuf.Timestamp` message. -/
structure TimestampMsg where
  seconds : Int
  nanos : Int
deriving DecidableEq, Repr

/-- `convertTimestamp` (lines 353–360) on a non-null date:
`{seconds: Math.floor(ms/1000), nanos: (ms % 1000) * 1000000}`.
JS `Math.floor` of the exact quotient is `Int.fdiv`; JS `%` is `Int.tmod`. -/
def convertTimestamp (ms : Int) : TimestampMsg :=
  ⟨Int.fdiv ms 1000, (Int.tmod ms 1000) * 1000000⟩

/-- `convertTimestamp` including the `if (!date) return null` guard. -/
def convertTimestampOpt (ms : Option Int) : Option TimestampMsg :=
  ms.map convertTimestamp

/-- `convertFromTimestamp` (lines 362–365) on a non-null wire timestamp:
`new Date(seconds * 1000 + nanos / 1000000)`.  On every value the server
produces, `nanos` is a multiple of 1000000, so the JS float division is the
exact integer division `Int.tdiv`. -/
def convertFromTimestamp (ts : TimestampMsg) : Int :=
  ts.seconds * 1000 + Int.tdiv ts.nanos 1000000

-- ===========================================================================
-- Wire messages (proto/gym_registration.proto)
-- ===========================================================================

structure CreateSessionReq where
  email : String
  password : String
deriving DecidableEq, Repr

structure CreateSessionResp where
  token : String
  trainee : List (String × Value)
deriving DecidableEq, Repr

structure DeleteSessionReq where
  token : String
deriving DecidableEq, Repr

structure DeleteSessionResp where
  message : String
deriving DecidableEq, Repr

structure CheckSessionReq where
  token : String
deriving DecidableEq, Repr

structure CheckSessionResp where
  authenticated : Bool
  trainee : List (String × Value)
deriving DecidableEq, Repr

/-- `PaginationRequest`.  The proto fields are `int32`; negative values would
be rejected by the storage layer before reaching any behaviour the spec
describes, so the model ranges over the non-negative values. -/
structure PaginationReq where
  page : Nat
  page_size : Nat
deriving DecidableEq, Repr

structure PaginationResp where
  page : Nat
  page_size : Nat
  total : Nat
deriving DecidableEq, Repr

structure ListTraineesReq where
  token : String
  pagination : Option PaginationReq
deriving DecidableEq, Repr

structure ListTraineesResp where
  data : List (List (String × Value))
  pagination : PaginationResp
deriving DecidableEq, Repr

structure CreateTraineeReq where
  name : String
  email : String
  password : String
  timezone : String
deriving DecidableEq, Repr

structure CreateTraineeResp where
  trainee : List (String × Value)
deriving DecidableEq, Repr

structure GetTraineeReq where
  token : String
  trainee_id : String
deriving DecidableEq, Repr

structure GetTraineeResp where
  trainee : List (String × Value)
deriving DecidableEq, Repr

structure UpdateTraineeReq where
  token : String
  trainee_id : String
  name : Option String
  email : Option String
  password : Option String
  timezone : Option String
deriving DecidableEq, Repr

structure UpdateTraineeResp where
  trainee : List (String × Value)
deriving DecidableEq, Repr

structure CreateWorkoutReq where
  token : String
  name : String
  duration : Int
  description : String
  color : String
deriving DecidableEq, Repr

structure CreateWorkoutResp where
  workout : Workout
deriving DecidableEq, Repr

structure UpdateWorkoutReq where
  token : String
  workout_id : String
  name : Option String
  duration : Option Int
  description : Option String
  color : Option String
deriving DecidableEq, Repr

structure UpdateWorkoutResp where
  workout : Workout
deriving DecidableEq, Repr

/-- Wire `Routine` message as built by `formatRoutine` (lines 772–781). -/
structure RoutineWire where
  id : String
  user_id : String
  availability : List TimeSlot
  trainee : Option (List (String × Value))
  created_at : TimestampMsg
  updated_at : TimestampMsg
deriving DecidableEq, Repr

/-- `ListRoutinesRequest` (`optional string trainee_id`). -/
structure ListRoutinesReq where
  token : String
  trainee_id : Option String
deriving DecidableEq, Repr

structure ListRoutinesResp where
  routines : List RoutineWire
deriving DecidableEq, Repr

structure CreateRoutineReq where
  token : String
  user_id : String
  availability : List TimeSlot
deriving DecidableEq, Repr

structure CreateRoutineResp where
  routine : RoutineWire
deriving DecidableEq, Repr

structure GetTraineeRoutineReq where
  token : String
  trainee_id : String
deriving DecidableEq, Repr

structure GetTraineeRoutineResp where
  routine : RoutineWire
deriving DecidableEq, Repr

structure UpdateTraineeRoutineReq where
  token : String
  trainee_id : String
  availability : List TimeSlot
deriving DecidableEq, Repr

structure UpdateTraineeRoutineResp where
  routine : RoutineWire
deriving DecidableEq, Repr

structure DeleteTraineeRoutineReq where
  token : String
  trainee_id : String
deriving DecidableEq, Repr

structure DeleteTraineeRoutineResp where
  success : Bool
deriving DecidableEq, Repr

/-- Wire `Registration` message as built by `formatRegistration` (984–997). -/
structure RegistrationWire where
  id : String
  event_id : String
  user_id : String
  invitee_email : String
  start_time : TimestampMsg
  end_time : Option TimestampMsg
  status : String
  trainee : Option (List (String × Value))
  created_at : TimestampMsg
  updated_at : TimestampMsg
deriving DecidableEq, Repr

structure ListRegistrationsReq where
  token : String
deriving DecidableEq, Repr

structure ListRegistrationsResp where
  registrations : List RegistrationWire
deriving DecidableEq, Repr

structure CreateRegistrationReq where
  token : String
  event_id : String
  user_id : String
  invitee_email : String
  start_time : Option TimestampMsg
  end_time : Option TimestampMsg
  status : String
deriving DecidableEq, Repr

structure CreateRegistrationResp where
  registration : RegistrationWire
deriving DecidableEq, Repr

structure GetRegistrationReq where
  token : String
  registration_id : String
deriving DecidableEq, Repr

structure GetRegistrationResp where
  registration : RegistrationWire
deriving DecidableEq, Repr

structure UpdateRegistrationReq where
  token : String
  registration_id : String
  event_id : Option String
  user_id : Option String
  invitee_email : Option String
  start_time : Option TimestampMsg
  end_time : Option TimestampMsg
  status : Option String
deriving DecidableEq, Repr

structure UpdateRegistrationResp where
  registration : RegistrationWire
deriving DecidableEq, Repr

-- ===========================================================================
-- Session service (grpc_client.js lines 371–449)
-- ===========================================================================

/-- `CreateSession` (372–411): validate email+password, look the trainee up
by unique email, compare the stored plaintext password, sign a token. -/
def createSession (env : Env) (s : State) (req : CreateSessionReq) :
    Except GrpcError CreateSessionResp :=
  if req.email = "" ∨ req.password = "" then
    .error ⟨Status.INVALID_ARGUMENT, "Email and password are required"⟩
  else
    match s.trainees.find? (fun t => t.email = req.email) with
    | none => .error ⟨Status.UNAUTHENTICATED, "Invalid credentials"⟩
    | some t =>
      if t.password = req.password then
        .ok ⟨env.sign ⟨t.id, t.email⟩, formatTrainee t⟩
      else
        .error ⟨Status.UNAUTHENTICATED, "Invalid credentials"⟩

/-- `DeleteSession` (413–423): authenticate the presented token, then add it
to `revokedTokens`; a thrown auth error reaches `callback(error)` unchanged. -/
def deleteSession (env : Env) (s : State) (req : DeleteSessionReq) :
    State × Except GrpcError DeleteSessionResp :=
  match authenticateToken env s.revoked req.token with
  | .error e => (s, .error e)
  | .ok _ =>
    ({ s with revoked := s.revoked ++ [req.token] },
     .ok ⟨"Successfully logged out"⟩)

/-- `CheckSession` (425–448): authenticate, then look the trainee up by the
id embedded in the token; a missing row is `NOT_FOUND`. -/
def checkSession (env : Env) (s : State) (req : CheckSessionReq) :
    Except GrpcError CheckSessionResp :=
  match authenticateToken env s.revoked req.token with
  | .error e => .error e
  | .ok userData =>
    match s.trainees.find? (fun t => t.id = userData.traineeId) with
    | none => .error ⟨Status.NOT_FOUND, "Trainee not found"⟩
    | some t => .ok ⟨true, formatTrainee t⟩

-- ===========================================================================
-- Trainee service (grpc_client.js lines 455–637)
-- ===========================================================================

/-- `ListTrainees` (456–496): `page = pagination?.page || 1`,
`pageSize = pagination?.page_size || 20` (JS `||`: a missing message or a
zero field falls back to the default), `skip = (page - 1) * pageSize`, then
`findMany({skip, take})` and a `count()` in one transaction. -/
def listTrainees (env : Env) (s : State) (req : ListTraineesReq) :
    Except GrpcError ListTraineesResp :=
  match authenticateToken env s.revoked req.token with
  | .error e => .error e
  | .ok _ =>
    let page := match req.pagination with
      | some p => if p.page = 0 then 1 else p.page
      | none => 1
    let pageSize := match req.pagination with
      | some p => if p.page_size = 0 then 20 else p.page_size
      | none => 20
    let skip := (page - 1) * pageSize
    .ok ⟨((s.trainees.drop skip).take pageSize).map formatTrainee,
         ⟨page, pageSize, s.trainees.length⟩⟩

/-- `CreateTrainee` (498–540): validate name+email+password, reject a
duplicate email with `ALREADY_EXISTS` before creating anything. -/
def createTrainee (s : State) (req : CreateTraineeReq) (newId : String)
    (now : Int) : State × Except GrpcError CreateTraineeResp :=
  if req.name = "" ∨ req.email = "" ∨ req.password = "" then
    (s, .error ⟨Status.INVALID_ARGUMENT, "Name, email, and password are required"⟩)
  else
    match s.trainees.find? (fun t => t.email = req.email) with
    | some _ => (s, .error ⟨Status.ALREADY_EXISTS, "Email is already in use"⟩)
    | none =>
      let t : Trainee :=
        ⟨newId, req.name, req.email, req.password, req.timezone, now, now⟩
      ({ s with trainees := s.trainees ++ [t] }, .ok ⟨formatTrainee t⟩)

/-- `GetTrainee` (542–573). -/
def getTrainee (env : Env) (s : State) (req : GetTraineeReq) :
    Except GrpcError GetTraineeResp :=
  match authenticateToken env s.revoked req.token with
  | .error e => .error e
  | .ok _ =>
    match s.trainees.find? (fun t => t.id = req.trainee_id) with
    | none => .error ⟨Status.NOT_FOUND, "Trainee not found"⟩
    | some t => .ok ⟨formatTrainee t⟩

/-- The sparse-patch guard of the Update* handlers for a string field:
`if (v !== undefined && v !== '') updateData.f = v`. -/
def patchStr (old : String) (field : Option String) : String :=
  match field with
  | some v => if v ≠ "" then v else old
  | none => old

/-- The row written by `prisma.trainee.update` for `UpdateTrainee`
(580–597); `updatedAt` is refreshed by the schema's `@updatedAt` column. -/
def applyTraineeUpdate (t : Trainee) (req : UpdateTraineeReq) (now : Int) :
    Trainee :=
  { t with
    name := patchStr t.name req.name,
    email := patchStr t.email req.email,
    password := patchStr t.password req.password,
    timezone := patchStr t.timezone req.timezone,
    updatedAt := now }

/-- `UpdateTrainee` (575–612).  Its `catch` block (600–611) checks only for
the Prisma not-found code `P2025` and otherwise replies
`{INTERNAL, "Internal server error"}`: unlike the sibling handlers it has no
`error.code ? error : ...` guard, so a thrown auth error is swallowed and
surfaces as `INTERNAL`. -/
def updateTrainee (env : Env) (s : State) (req : UpdateTraineeReq)
    (now : Int) : State × Except GrpcError UpdateTraineeResp :=
  match authenticateToken env s.revoked req.token with
  | .error _ => (s, .error ⟨Status.INTERNAL, "Internal server error"⟩)
  | .ok _ =>
    match s.trainees.find? (fun t => t.id = req.trainee_id) with
    | none => (s, .error ⟨Status.NOT_FOUND, "Trainee not found"⟩)
    | some t =>
      let t' := applyTraineeUpdate t req now
      ({ s with trainees := (s.trainees.map
           (fun u => if u.id = req.trainee_id then applyTraineeUpdate u req now else u)) },
       .ok ⟨formatTrainee t'⟩)

/-- `DeleteTrainee` (614–636); its `catch` preserves thrown error codes. -/
def deleteTrainee (env : Env) (s : State) (req : GetTraineeReq) :
    State × Except GrpcError Bool :=
  match authenticateToken env s.revoked req.token with
  | .error e => (s, .error e)
  | .ok _ =>
    match s.trainees.find? (fun t => t.id = req.trainee_id) with
    | none => (s, .error ⟨Status.NOT_FOUND, "Trainee not found"⟩)
    | some _ =>
      ({ s with trainees := s.trainees.filter (fun t => ¬ t.id = req.trainee_id) },
       .ok true)

-- ===========================================================================
-- Workout service (grpc_client.js lines 643–765)
-- ===========================================================================

/-- `CreateWorkout` (662–685): authenticate first, then
`if (!name || !duration)` — a zero `int32` duration is falsy, i.e. absent. -/
def createWorkout (env : Env) (s : State) (req : CreateWorkoutReq)
    (newId : String) (now : Int) : State × Except GrpcError CreateWorkoutResp :=
  match authenticateToken env s.revoked req.token with
  | .error e => (s, .error e)
  | .ok _ =>
    if req.name = "" ∨ req.duration = 0 then
      (s, .error ⟨Status.INVALID_ARGUMENT, "Name and duration are required"⟩)
    else
      let w : Workout :=
        ⟨newId, req.name, req.duration, req.description, req.color, now, now⟩
      ({ s with workouts := s.workouts ++ [w] }, .ok ⟨w⟩)

/-- The row written by `prisma.workout.update` for `UpdateWorkout` (717–726):
only `duration` is patched on mere presence (`duration !== undefined`, no
empty-string guard — it is an `int32`). -/
def applyWorkoutUpdate (w : Workout) (req : UpdateWorkoutReq) (now : Int) :
    Workout :=
  { w with
    name := patchStr w.name req.name,
    duration := match req.duration with | some d => d | none => w.duration,
    description := patchStr w.description req.description,
    color := patchStr w.color req.color,
    updatedAt := now }

/-- `UpdateWorkout` (712–741).  Like `UpdateTrainee`, its `catch` (729–740)
only recognises `P2025` and otherwise replies `INTERNAL`, so a thrown auth
error is swallowed. -/
def updateWorkout (env : Env) (s : State) (req : UpdateWorkoutReq)
    (now : Int) : State × Except GrpcError UpdateWorkoutResp :=
  match authenticateToken env s.revoked req.token with
  | .error _ => (s, .error ⟨Status.INTERNAL, "Internal server error"⟩)
  | .ok _ =>
    match s.workouts.find? (fun w => w.id = req.workout_id) with
    | none => (s, .error ⟨Status.NOT_FOUND, "Workout not found"⟩)
    | some w =>
      let w' := applyWorkoutUpdate w req now
      ({ s with workouts := (s.workouts.map
           (fun u => if u.id = req.workout_id then applyWorkoutUpdate u req now else u)) },
       .ok ⟨w'⟩)

/-- Insert `x` before the first element whose key is strictly smaller (stable
descending insertion). -/
def insertDesc {α : Type} (key : α → Int) (x : α) : List α → List α
  | [] => [x]
  | y :: ys => if key y < key x then x :: y :: ys else y :: insertDesc key x ys

/-- Prisma `orderBy: { createdAt: 'desc' }`: a stable descending sort on the
given key. -/
def sortDesc {α : Type} (key : α → Int) : List α → List α
  | [] => []
  | x :: xs => insertDesc key x (sortDesc key xs)

-- ===========================================================================
-- Routine service (grpc_client.js lines 772–978)
-- ===========================================================================

/-- `formatRoutine` (772–781).  The Prisma `include: {trainee: ...}` joins
the owning trainee row by foreign key; `routine.trainee ? formatTrainee(...)
: null` then redacts it. -/
def formatRoutine (s : State) (r : Routine) : RoutineWire :=
  { id := r.id,
    user_id := r.userId,
    availability := r.availability,
    trainee := (s.trainees.find? (fun t => t.id = r.userId)).map formatTrainee,
    created_at := convertTimestamp r.createdAt,
    updated_at := convertTimestamp r.updatedAt }

/-- `ListRoutines` (784–816): `const whereClause = trainee_id ? { userId:
trainee_id } : {}` — a falsy filter (absent or empty string) means no
filter; then `findMany` with the trainee join, ordered by `createdAt`
descending, mapped through `formatRoutine`. -/
def listRoutines (env : Env) (s : State) (req : ListRoutinesReq) :
    Except GrpcError ListRoutinesResp :=
  match authenticateToken env s.revoked req.token with
  | .error e => .error e
  | .ok _ =>
    let filtered := match req.trainee_id with
      | some tid =>
        if tid ≠ "" then s.routines.filter (fun r => r.userId = tid)
        else s.routines
      | none => s.routines
    .ok ⟨(sortDesc (fun r => r.createdAt) filtered).map (formatRoutine s)⟩

/-- `CreateRoutine` (818–866): authenticate, then
`if (!user_id || !availability || availability.length === 0)`, then check
the trainee exists, then create. -/
def createRoutine (env : Env) (s : State) (req : CreateRoutineReq)
    (newId : String) (now : Int) : State × Except GrpcError CreateRoutineResp :=
  match authenticateToken env s.revoked req.token with
  | .error e => (s, .error e)
  | .ok _ =>
    if req.user_id = "" ∨ req.availability = [] then
      (s, .error ⟨Status.INVALID_ARGUMENT, "user_id and availability are required"⟩)
    else
      match s.trainees.find? (fun t => t.id = req.user_id) with
      | none => (s, .error ⟨Status.NOT_FOUND, "Trainee not found"⟩)
      | some _ =>
        let r : Routine := ⟨newId, req.user_id, req.availability, now, now⟩
        let s' := { s with routines := s.routines ++ [r] }
        (s', .ok ⟨formatRoutine s' r⟩)

/-- `GetTraineeRoutine` (868–902): `findFirst({where: {userId}})` — the first
matching routine in storage order. -/
def getTraineeRoutine (env : Env) (s : State) (req : GetTraineeRoutineReq) :
    Except GrpcError GetTraineeRoutineResp :=
  match authenticateToken env s.revoked req.token with
  | .error e => .error e
  | .ok _ =>
    match s.routines.find? (fun r => r.userId = req.trainee_id) with
    | none => .error ⟨Status.NOT_FOUND, "Routine not found"⟩
    | some r => .ok ⟨formatRoutine s r⟩

/-- `UpdateTraineeRoutine` (904–952): `updateMany({where: {userId}})` writes
the new availability into EVERY routine row of the trainee (`@updatedAt`
refreshes each touched row); `count === 0` is `NOT_FOUND`; the response is
re-read with `findFirst`.  The `catch` (946–951) replies `INTERNAL`
unconditionally, so a thrown auth error is swallowed. -/
def updateTraineeRoutine (env : Env) (s : State)
    (req : UpdateTraineeRoutineReq) (now : Int) :
    State × Except GrpcError UpdateTraineeRoutineResp :=
  match authenticateToken env s.revoked req.token with
  | .error _ => (s, .error ⟨Status.INTERNAL, "Internal server error"⟩)
  | .ok _ =>
    if req.availability = [] then
      (s, .error ⟨Status.INVALID_ARGUMENT, "availability is required"⟩)
    else
      let count := (s.routines.filter (fun r => r.userId = req.trainee_id)).length
      let s' := { s with routines := (s.routines.map
        (fun r => if r.userId = req.trainee_id then
          { r with availability := req.availability, updatedAt := now }
        else r)) }
      if count = 0 then
        (s', .error ⟨Status.NOT_FOUND, "Routine not found"⟩)
      else
        match s'.routines.find? (fun r => r.userId = req.trainee_id) with
        | some r => (s', .ok ⟨formatRoutine s' r⟩)
        | none => (s', .error ⟨Status.INTERNAL, "Internal server error"⟩)

/-- `DeleteTraineeRoutine` (954–977): `deleteMany({where: {userId}})` removes
EVERY routine row of the trainee; `count === 0` is `NOT_FOUND`.  Its `catch`
preserves thrown error codes. -/
def deleteTraineeRoutine (env : Env) (s : State)
    (req : DeleteTraineeRoutineReq) :
    State × Except GrpcError DeleteTraineeRoutineResp :=
  match authenticateToken env s.revoked req.token with
  | .error e => (s, .error e)
  | .ok _ =>
    let count := (s.routines.filter (fun r => r.userId = req.trainee_id)).length
    let s' := { s with routines := s.routines.filter (fun r => ¬ r.userId = req.trainee_id) }
    if count = 0 then
      (s', .error ⟨Status.NOT_FOUND, "Routine not found"⟩)
    else
      (s', .ok ⟨true⟩)

-- ===========================================================================
-- Registration service (grpc_client.js lines 984–1187)
-- ===========================================================================

/-- `formatRegistration` (984–997). -/
def formatRegistration (s : State) (r : Registration) : RegistrationWire :=
  { id := r.id,
    event_id := r.eventId,
    user_id := r.userId,
    invitee_email := r.inviteeEmail,
    start_time := convertTimestamp r.startTime,
    end_time := convertTimestampOpt r.endTime,
    status := r.status,
    trainee := (s.trainees.find? (fun t => t.id = r.userId)).map formatTrainee,
    created_at := convertTimestamp r.createdAt,
    updated_at := convertTimestamp r.updatedAt }

/-- `ListRegistrations` (1000–1029): `findMany` with the trainee join,
ordered by `createdAt` descending, mapped through `formatRegistration`. -/
def listRegistrations (env : Env) (s : State) (req : ListRegistrationsReq) :
    Except GrpcError ListRegistrationsResp :=
  match authenticateToken env s.revoked req.token with
  | .error e => .error e
  | .ok _ =>
    .ok ⟨(sortDesc (fun r => r.createdAt) s.registrations).map
          (formatRegistration s)⟩

/-- `CreateRegistration` (1031–1083): authenticate, then
`if (!event_id || !user_id || !invitee_email || !start_time)` (an absent
timestamp message is falsy), then check the trainee exists, then create with
`status: status || 'scheduled'`. -/
def createRegistration (env : Env) (s : State) (req : CreateRegistrationReq)
    (newId : String) (now : Int) :
    State × Except GrpcError CreateRegistrationResp :=
  match authenticateToken env s.revoked req.token with
  | .error e => (s, .error e)
  | .ok _ =>
    match req.start_time with
    | none =>
      (s, .error ⟨Status.INVALID_ARGUMENT,
        "event_id, user_id, invitee_email, and start_time are required"⟩)
    | some st =>
      if req.event_id = "" ∨ req.user_id = "" ∨ req.invitee_email = "" then
        (s, .error ⟨Status.INVALID_ARGUMENT,
          "event_id, user_id, invitee_email, and start_time are required"⟩)
      else
        match s.trainees.find? (fun t => t.id = req.user_id) with
        | none => (s, .error ⟨Status.NOT_FOUND, "Trainee not found"⟩)
        | some _ =>
          let r : Registration :=
            ⟨newId, req.event_id, req.user_id, req.invitee_email,
             convertFromTimestamp st, req.end_time.map convertFromTimestamp,
             (if req.status = "" then "scheduled" else req.status), now, now⟩
          let s' := { s with registrations := s.registrations ++ [r] }
          (s', .ok ⟨formatRegistration s' r⟩)

/-- `GetRegistration` (1085–1119). -/
def getRegistration (env : Env) (s : State) (req : GetRegistrationReq) :
    Except GrpcError GetRegistrationResp :=
  match authenticateToken env s.revoked req.token with
  | .error e => .error e
  | .ok _ =>
    match s.registrations.find? (fun r => r.id = req.registration_id) with
    | none => .error ⟨Status.NOT_FOUND, "Registration not found"⟩
    | some r => .ok ⟨formatRegistration s r⟩

/-- The row written by `prisma.registration.update` for `UpdateRegistration`
(1126–1132): string fields use the absent-or-empty guard; `start_time` and
`end_time` are patched on mere presence (`!== undefined`), converting the
wire timestamp. -/
def applyRegistrationUpdate (r : Registration) (req : UpdateRegistrationReq)
    (now : Int) : Registration :=
  { r with
    eventId := patchStr r.eventId req.event_id,
    userId := patchStr r.userId req.user_id,
    inviteeEmail := patchStr r.inviteeEmail req.invitee_email,
    startTime := match req.start_time with
      | some ts => convertFromTimestamp ts
      | none => r.startTime,
    endTime := match req.end_time with
      | some ts => some (convertFromTimestamp ts)
      | none => r.endTime,
    status := patchStr r.status req.status,
    updatedAt := now }

/-- `UpdateRegistration` (1121–1163).  Like `UpdateTrainee`, its `catch`
(1151–1162) only recognises `P2025` and otherwise replies `INTERNAL`, so a
thrown auth error is swallowed. -/
def updateRegistration (env : Env) (s : State) (req : UpdateRegistrationReq)
    (now : Int) : State × Except GrpcError UpdateRegistrationResp :=
  match authenticateToken env s.revoked req.token with
  | .error _ => (s, .error ⟨Status.INTERNAL, "Internal server error"⟩)
  | .ok _ =>
    match s.registrations.find? (fun r => r.id = req.registration_id) with
    | none => (s, .error ⟨Status.NOT_FOUND, "Registration not found"⟩)
    | some r =>
      let r' := applyRegistrationUpdate r req now
      let s' := { s with registrations := (s.registrations.map
        (fun u => if u.id = req.registration_id then applyRegistrationUpdate u req now else u)) }
      (s', .ok ⟨formatRegistration s' r'⟩)

-- ===========================================================================
-- Concrete fixtures (used by the witness and counterexample theorems)
-- ===========================================================================

/-- A concrete signing environment: `"tok"` is the single structurally valid
token and decodes to trainee `u1`. -/
def envT : Env :=
  { verify := fun t => if t = "tok" then some ⟨"u1", "a@x.com"⟩ else none,
    sign := fun _ => "tok" }

/-- A stored trainee. -/
def trA : Trainee := ⟨"u1", "A", "a@x.com", "pw", "UTC", 1000, 1000⟩

/-- A store holding exactly `trA`, with nothing revoked. -/
def st0 : State := ⟨[trA], [], [], [], []⟩

def slotM : TimeSlot := ⟨"monday", "08:00", "10:00"⟩

def slotW : TimeSlot := ⟨"wednesday", "18:00", "20:00"⟩

/-- Two routine rows belonging to the same trainee `u1`. -/
def rtn1 : Routine := ⟨"r1", "u1", [slotM], 1000, 1000⟩

def rtn2 : Routine := ⟨"r2", "u1", [slotM], 1000, 1000⟩

/-- A store in which trainee `u1` has two routines. -/
def st2R : State := ⟨[trA], [], [rtn1, rtn2], [], []⟩

/-- The `n`-th trainee of the 12-record pagination fixture. -/
def trN (n : Nat) : Trainee :=
  ⟨"u" ++ toString n, "N" ++ toString n, "n" ++ toString n ++ "@x.com",
   "pw", "UTC", 1000, 1000⟩

/-- A store holding 12 trainees `trN 1 … trN 12`, with nothing revoked. -/
def st12 : State := ⟨(List.range 12).map (fun n => trN (n + 1)), [], [], [], []⟩

/-- An empty store (no trainees), with nothing revoked. -/
def stE : State := ⟨[], [], [], [], []⟩

-- ===========================================================================
-- Theorems
-- ===========================================================================

/-- C3 (counterexample): the claim quantifies over every integer epoch
millisecond, but at `t = -1500` (a pre-1970 instant with a sub-second part)
`Math.floor` rounds toward `-∞` while JS `%` keeps the sign of the dividend,
so marshal gives `{seconds: -2, nanos: -500000000}` and unmarshal returns
`-2500 ≠ -1500`. -/
theorem convertTimestamp_no_roundtrip_neg :
    convertFromTimestamp (convertTimestamp (-1500)) = -2500 ∧
      (-2500 : Int) ≠ -1500 := by
  decide

/-- C3 (amended): for every non-negative millisecond-aligned timestamp `t`,
marshaling to `{seconds: floor(ms/1000), nanos: (ms % 1000) * 1e6}` and
unmarshaling via `seconds * 1000 + nanos / 1e6` round-trips exactly:
`convertFromTimestamp (convertTimestamp t) = t`. -/
theorem convertTimestamp_roundtrip (t : Int) (h : 0 ≤ t) :
    convertFromTimestamp (convertTimestamp t) = t := by
  unfold convertTimestamp convertFromTimestamp
  simp only
  rw [Int.mul_tdiv_cancel _ (by norm_num),
      Int.fdiv_eq_ediv _ (by norm_num),
      Int.tmod_eq_emod h (by norm_num)]
  omega

/-- C3 (witness): the amended round-trip at the concrete instant
`t = 1736251200123`. -/
theorem convertTimestamp_roundtrip_witness :
    convertFromTimestamp (convertTimestamp 1736251200123) = 1736251200123 :=
  convertTimestamp_roundtrip 1736251200123 (by norm_num)

/-- C4: `authenticateToken`, on any token, either returns the decoded claims
(trainee id and email, exactly what `verify` decodes) or fails with exactly
one of the three `UNAUTHENTICATED` failures — missing token, revoked token,
invalid token — and the revocation check precedes signature verification: a
non-empty token in the revocation set yields the revoked failure regardless
of what `verify` would say. -/
theorem authenticateToken_contract (env : Env) (revoked : List String)
    (token : String) :
    ((∃ c, authenticateToken env revoked token = .ok c ∧
        env.verify token = some c) ∨
      authenticateToken env revoked token =
        .error ⟨Status.UNAUTHENTICATED, "Authorization token missing"⟩ ∨
      authenticateToken env revoked token =
        .error ⟨Status.UNAUTHENTICATED, "Token is revoked"⟩ ∨
      authenticateToken env revoked token =
        .error ⟨Status.UNAUTHENTICATED, "Invalid token"⟩) ∧
    (token ≠ "" → token ∈ revoked →
      authenticateToken env revoked token =
        .error ⟨Status.UNAUTHENTICATED, "Token is revoked"⟩) := by
  constructor
  · unfold authenticateToken
    by_cases h1 : token = ""
    · simp [h1]
    · by_cases h2 : token ∈ revoked
      · simp [h1, h2]
      · cases hv : env.verify token with
        | some c =>
          left
          refine ⟨c, ?_, rfl⟩
          simp [h1, h2, hv]
        | none => simp [h1, h2, hv]
  · intro h1 h2
    unfold authenticateToken
    simp [h1, h2]

/-- C4 (witness): the revoked-before-verify clause at a concrete revoked,
structurally valid token. -/
theorem authenticateToken_contract_witness :
    authenticateToken envT ["tok"] "tok" =
      .error ⟨Status.UNAUTHENTICATED, "Token is revoked"⟩ :=
  (authenticateToken_contract envT ["tok"] "tok").2 (by decide) (by simp)

/-- C10: a `CheckSession` call whose token is present, not revoked, and
decodes to claims whose trainee id matches no stored trainee fails with
`NOT_FOUND` ("Trainee not found") — not with `Unauthenticated`, and not with
an `authenticated = false` response. -/
theorem checkSession_unknown_trainee (env : Env) (s : State) (tok : String)
    (c : Claims) (h1 : tok ≠ "") (h2 : tok ∉ s.revoked)
    (h3 : env.verify tok = some c)
    (h4 : ∀ t ∈ s.trainees, t.id ≠ c.traineeId) :
    checkSession env s ⟨tok⟩ = .error ⟨Status.NOT_FOUND, "Trainee not found"⟩ := by
  have hfind : s.trainees.find? (fun t => t.id = c.traineeId) = none := by
    rw [List.find?_eq_none]
    intro t ht
    simpa using h4 t ht
  unfold checkSession authenticateToken
  simp [h1, h2, h3, hfind]

/-- C1 (evaluation at the failing input): logging out the structurally valid
token `"tok"` succeeds and puts it in the revocation set; `CheckSession` then
rejects it with `UNAUTHENTICATED` as claimed, but `UpdateTrainee` rejects the
very same revoked token with `INTERNAL` ("Internal server error"), because
its `catch` block (grpc_client.js 600–611) checks only for the Prisma code
`P2025` and, unlike its sibling handlers, never forwards `error.code`. -/
theorem revoked_token_updateTrainee_internal :
    (deleteSession envT st0 ⟨"tok"⟩).2 = .ok ⟨"Successfully logged out"⟩ ∧
    (deleteSession envT st0 ⟨"tok"⟩).1.revoked = ["tok"] ∧
    envT.verify "tok" = some ⟨"u1", "a@x.com"⟩ ∧
    checkSession envT (deleteSession envT st0 ⟨"tok"⟩).1 ⟨"tok"⟩ =
      .error ⟨Status.UNAUTHENTICATED, "Token is revoked"⟩ ∧
    (updateTrainee envT (deleteSession envT st0 ⟨"tok"⟩).1
        ⟨"tok", "u1", none, none, none, none⟩ 2000).2 =
      .error ⟨Status.INTERNAL, "Internal server error"⟩ := by
  refine ⟨rfl, rfl, rfl, rfl, rfl⟩

/-- C10 (witness): a valid token over an empty trainee table. -/
theorem checkSession_unknown_trainee_witness :
    checkSession envT stE ⟨"tok"⟩ =
      .error ⟨Status.NOT_FOUND, "Trainee not found"⟩ :=
  checkSession_unknown_trainee envT stE "tok" ⟨"u1", "a@x.com"⟩
    (by decide) (by simp [stE]) (by decide) (by simp [stE])

/-- C2 (counterexample): with two routine rows `rtn1, rtn2` both owned by
trainee `u1`, `DeleteTraineeRoutine` deletes BOTH rows and
`UpdateTraineeRoutine` rewrites the availability of BOTH rows — not only the
first match as claimed (`deleteMany` / `updateMany` have bulk semantics). -/
theorem routine_bulk_semantics_counterexample :
    (deleteTraineeRoutine envT st2R ⟨"tok", "u1"⟩).1.routines = [] ∧
    ((updateTraineeRoutine envT st2R ⟨"tok", "u1", [slotW]⟩ 2000).1.routines.map
      (fun r => r.availability)) = [[slotW], [slotW]] ∧
    rtn1.userId = "u1" ∧ rtn2.userId = "u1" ∧ rtn1 ≠ rtn2 ∧
    st2R.routines = [rtn1, rtn2] := by
  refine ⟨rfl, rfl, rfl, rfl, by decide, rfl⟩

/-- C2 (amended): `UpdateTraineeRoutine` and `DeleteTraineeRoutine` operate
on ALL routine rows matching the trainee id — every matching routine is
updated resp. deleted and every non-matching routine is left unchanged —
while only the read path (`GetTraineeRoutine`) uses first-match semantics. -/
theorem routine_bulk_semantics (env : Env) (s : State) (tok uid : String)
    (avail : List TimeSlot) (now : Int) (c : Claims)
    (hauth : authenticateToken env s.revoked tok = .ok c) (hav : avail ≠ []) :
    (deleteTraineeRoutine env s ⟨tok, uid⟩).1.routines =
      s.routines.filter (fun r => ¬ r.userId = uid) ∧
    (updateTraineeRoutine env s ⟨tok, uid, avail⟩ now).1.routines =
      s.routines.map (fun r => if r.userId = uid then
        { r with availability := avail, updatedAt := now } else r) ∧
    getTraineeRoutine env s ⟨tok, uid⟩ =
      (match s.routines.find? (fun r => r.userId = uid) with
        | none => .error ⟨Status.NOT_FOUND, "Routine not found"⟩
        | some r => .ok ⟨formatRoutine s r⟩) := by
  refine ⟨?_, ?_, ?_⟩
  · unfold deleteTraineeRoutine
    rw [hauth]
    dsimp only
    split <;> rfl
  · unfold updateTraineeRoutine
    rw [hauth, if_neg hav]
    dsimp only
    split
    · rfl
    · split <;> rfl
  · unfold getTraineeRoutine
    rw [hauth]

/-- C2 (witness): the amended bulk semantics at the two-routine store. -/
theorem routine_bulk_semantics_witness :
    (deleteTraineeRoutine envT st2R ⟨"tok", "u1"⟩).1.routines =
      st2R.routines.filter (fun r => ¬ r.userId = "u1") :=
  (routine_bulk_semantics envT st2R "tok" "u1" [slotW] 2000 ⟨"u1", "a@x.com"⟩
    (by decide) (by decide)).1

/-- C6: `ListTrainees` pagination — an unspecified pagination message means
page 1 with the default page size 20; otherwise the returned page is the
slice starting at offset `(page - 1) * page_size` (1-based pages), the
caller-supplied page size is honoured as-is with no upper bound, and the
response total is the full stored record count. -/
theorem listTrainees_pagination (env : Env) (s : State) (tok : String)
    (c : Claims) (hauth : authenticateToken env s.revoked tok = .ok c) :
    listTrainees env s ⟨tok, none⟩ =
      .ok ⟨(s.trainees.take 20).map formatTrainee, ⟨1, 20, s.trainees.length⟩⟩ ∧
    (∀ p sz : Nat, p ≠ 0 → sz ≠ 0 →
      listTrainees env s ⟨tok, some ⟨p, sz⟩⟩ =
        .ok ⟨((s.trainees.drop ((p - 1) * sz)).take sz).map formatTrainee,
             ⟨p, sz, s.trainees.length⟩⟩) := by
  constructor
  · unfold listTrainees
    rw [hauth]
    simp
  · intro p sz hp hsz
    unfold listTrainees
    rw [hauth]
    simp [hp, hsz]

/-- C6 (witness): page 2 with page size 5 over the 12-record store returns
records 6 through 10 and total 12. -/
theorem listTrainees_pagination_witness :
    listTrainees envT st12 ⟨"tok", some ⟨2, 5⟩⟩ =
      .ok ⟨[trN 6, trN 7, trN 8, trN 9, trN 10].map formatTrainee,
           ⟨2, 5, 12⟩⟩ := by
  have h := (listTrainees_pagination envT st12 "tok" ⟨"u1", "a@x.com"⟩
    (by decide)).2 2 5 (by decide) (by decide)
  rw [h]
  rfl

/-- C7 (counterexample): a `CreateTrainee` request whose email duplicates
the stored trainee `trA` but whose `name` is absent fails with
`INVALID_ARGUMENT`, not `ALREADY_EXISTS` — required-field validation runs
before the duplicate-email check. -/
theorem createTrainee_duplicate_invalid_argument :
    createTrainee st0 ⟨"", "a@x.com", "pw2", "UTC"⟩ "u2" 2000 =
      (st0, .error ⟨Status.INVALID_ARGUMENT,
        "Name, email, and password are required"⟩) ∧
    trA ∈ st0.trainees ∧ trA.email = "a@x.com" := by
  refine ⟨rfl, by simp [st0], rfl⟩

/-- C7 (amended): a `CreateTrainee` request with all required fields present
whose email equals the email of an already-stored trainee fails with
`ALREADY_EXISTS` and performs no mutation: the returned state is exactly the
input state. -/
theorem createTrainee_duplicate_email (s : State) (req : CreateTraineeReq)
    (newId : String) (now : Int) (hn : req.name ≠ "") (he : req.email ≠ "")
    (hp : req.password ≠ "") (hdup : ∃ t ∈ s.trainees, t.email = req.email) :
    createTrainee s req newId now =
      (s, .error ⟨Status.ALREADY_EXISTS, "Email is already in use"⟩) := by
  have hfind : (s.trainees.find? (fun t => t.email = req.email)).isSome := by
    rw [List.find?_isSome]
    obtain ⟨t, ht, he'⟩ := hdup
    exact ⟨t, ht, by simpa using he'⟩
  unfold createTrainee
  rw [if_neg (by simp [hn, he, hp])]
  cases hf : s.trainees.find? (fun t => t.email = req.email) with
  | some t => rfl
  | none => rw [hf] at hfind; simp at hfind

/-- The wire keys of a formatted trainee: exactly the six non-password row
keys plus the `created_at` / `updated_at` aliases. -/
theorem formatTrainee_keys (t : Trainee) :
    (formatTrainee t).map Prod.fst =
      ["id", "name", "email", "timezone", "createdAt", "updatedAt",
       "created_at", "updated_at"] := by
  simp [formatTrainee, traineeFields]

/-- `formatTrainee` output never carries a `password` key. -/
theorem formatTrainee_noPassword (t : Trainee) :
    noPasswordKey (formatTrainee t) := by
  unfold noPasswordKey
  rw [formatTrainee_keys]
  decide

/-- A trainee embedded by `formatRoutine` is a `formatTrainee` image. -/
theorem formatRoutine_trainee_noPassword (s : State) (r : Routine)
    (tr : List (String × Value)) (h : (formatRoutine s r).trainee = some tr) :
    noPasswordKey tr := by
  unfold formatRoutine at h
  dsimp only at h
  obtain ⟨t, -, rfl⟩ := Option.map_eq_some'.mp h
  exact formatTrainee_noPassword t

/-- A trainee embedded by `formatRegistration` is a `formatTrainee` image. -/
theorem formatRegistration_trainee_noPassword (s : State) (r : Registration)
    (tr : List (String × Value))
    (h : (formatRegistration s r).trainee = some tr) : noPasswordKey tr := by
  unfold formatRegistration at h
  dsimp only at h
  obtain ⟨t, -, rfl⟩ := Option.map_eq_some'.mp h
  exact formatTrainee_noPassword t

/-- C5: every operation whose response carries a trainee record —
`CreateSession`, `CheckSession`, `ListTrainees`, `CreateTrainee`,
`GetTrainee`, `UpdateTrainee`, and the trainees embedded in the routine
responses (`ListRoutines`, `CreateRoutine`, `GetTraineeRoutine`,
`UpdateTraineeRoutine`) and registration responses (`ListRegistrations`,
`CreateRegistration`, `GetRegistration`, `UpdateRegistration`) — returns it
without the `password` field. -/
theorem trainee_password_redaction (env : Env) (s : State) :
    (∀ (req : CreateSessionReq) resp, createSession env s req = .ok resp →
      noPasswordKey resp.trainee) ∧
    (∀ (req : CheckSessionReq) resp, checkSession env s req = .ok resp →
      noPasswordKey resp.trainee) ∧
    (∀ (req : ListTraineesReq) resp, listTrainees env s req = .ok resp →
      ∀ tr ∈ resp.data, noPasswordKey tr) ∧
    (∀ (req : CreateTraineeReq) newId now s' resp,
      createTrainee s req newId now = (s', .ok resp) →
      noPasswordKey resp.trainee) ∧
    (∀ (req : GetTraineeReq) resp, getTrainee env s req = .ok resp →
      noPasswordKey resp.trainee) ∧
    (∀ (req : UpdateTraineeReq) now s' resp,
      updateTrainee env s req now = (s', .ok resp) →
      noPasswordKey resp.trainee) ∧
    (∀ (req : CreateRoutineReq) newId now s' resp tr,
      createRoutine env s req newId now = (s', .ok resp) →
      resp.routine.trainee = some tr → noPasswordKey tr) ∧
    (∀ (req : GetTraineeRoutineReq) resp tr,
      getTraineeRoutine env s req = .ok resp →
      resp.routine.trainee = some tr → noPasswordKey tr) ∧
    (∀ (req : UpdateTraineeRoutineReq) now s' resp tr,
      updateTraineeRoutine env s req now = (s', .ok resp) →
      resp.routine.trainee = some tr → noPasswordKey tr) ∧
    (∀ (req : CreateRegistrationReq) newId now s' resp tr,
      createRegistration env s req newId now = (s', .ok resp) →
      resp.registration.trainee = some tr → noPasswordKey tr) ∧
    (∀ (req : GetRegistrationReq) resp tr,
      getRegistration env s req = .ok resp →
      resp.registration.trainee = some tr → noPasswordKey tr) ∧
    (∀ (req : UpdateRegistrationReq) now s' resp tr,
      updateRegistration env s req now = (s', .ok resp) →
      resp.registration.trainee = some tr → noPasswordKey tr) ∧
    (∀ (req : ListRoutinesReq) resp, listRoutines env s req = .ok resp →
      ∀ rr ∈ resp.routines, ∀ tr, rr.trainee = some tr → noPasswordKey tr) ∧
    (∀ (req : ListRegistrationsReq) resp,
      listRegistrations env s req = .ok resp →
      ∀ rg ∈ resp.registrations, ∀ tr, rg.trainee = some tr →
      noPasswordKey tr) := by
  refine ⟨?_, ?_, ?_, ?_, ?_, ?_, ?_, ?_, ?_, ?_, ?_, ?_, ?_, ?_⟩
  · intro req resp h
    unfold createSession at h
    split at h
    · cases h
    · split at h
      · cases h
      · split at h
        · cases h
          exact formatTrainee_noPassword _
        · cases h
  · intro req resp h
    unfold checkSession at h
    split at h
    · cases h
    · split at h
      · cases h
      · cases h
        exact formatTrainee_noPassword _
  · intro req resp h
    unfold listTrainees at h
    split at h
    · cases h
    · cases h
      intro tr htr
      simp only [List.mem_map] at htr
      obtain ⟨t, -, rfl⟩ := htr
      exact formatTrainee_noPassword t
  · intro req newId now s' resp h
    unfold createTrainee at h
    split at h
    · simp at h
    · split at h
      · simp at h
      · simp only [Prod.mk.injEq] at h
        obtain ⟨-, h2⟩ := h
        cases h2
        exact formatTrainee_noPassword _
  · intro req resp h
    unfold getTrainee at h
    split at h
    · cases h
    · split at h
      · cases h
      · cases h
        exact formatTrainee_noPassword _
  · intro req now s' resp h
    unfold updateTrainee at h
    split at h
    · simp at h
    · split at h
      · simp at h
      · simp only [Prod.mk.injEq] at h
        obtain ⟨-, h2⟩ := h
        cases h2
        exact formatTrainee_noPassword _
  · intro req newId now s' resp tr h htr
    unfold createRoutine at h
    split at h
    · simp at h
    · split at h
      · simp at h
      · split at h
        · simp at h
        · simp only [Prod.mk.injEq] at h
          obtain ⟨-, h2⟩ := h
          cases h2
          exact formatRoutine_trainee_noPassword _ _ _ htr
  · intro req resp tr h htr
    unfold getTraineeRoutine at h
    split at h
    · cases h
    · split at h
      · cases h
      · cases h
        exact formatRoutine_trainee_noPassword _ _ _ htr
  · intro req now s' resp tr h htr
    unfold updateTraineeRoutine at h
    dsimp only at h
    split at h
    · simp at h
    · split at h
      · simp at h
      · split at h
        · simp at h
        · split at h
          · simp only [Prod.mk.injEq] at h
            obtain ⟨-, h2⟩ := h
            cases h2
            exact formatRoutine_trainee_noPassword _ _ _ htr
          · simp at h
  · intro req newId now s' resp tr h htr
    unfold createRegistration at h
    split at h
    · simp at h
    · split at h
      · simp at h
      · split at h
        · simp at h
        · split at h
          · simp at h
          · simp only [Prod.mk.injEq] at h
            obtain ⟨-, h2⟩ := h
            cases h2
            exact formatRegistration_trainee_noPassword _ _ _ htr
  · intro req resp tr h htr
    unfold getRegistration at h
    split at h
    · cases h
    · split at h
      · cases h
      · cases h
        exact formatRegistration_trainee_noPassword _ _ _ htr
  · intro req now s' resp tr h htr
    unfold updateRegistration at h
    split at h
    · simp at h
    · split at h
      · simp at h
      · simp only [Prod.mk.injEq] at h
        obtain ⟨-, h2⟩ := h
        cases h2
        exact formatRegistration_trainee_noPassword _ _ _ htr
  · intro req resp h
    unfold listRoutines at h
    split at h
    · cases h
    · cases h
      intro rr hrr tr htr
      simp only [List.mem_map] at hrr
      obtain ⟨r, -, rfl⟩ := hrr
      exact formatRoutine_trainee_noPassword _ _ _ htr
  · intro req resp h
    unfold listRegistrations at h
    split at h
    · cases h
    · cases h
      intro rg hrg tr htr
      simp only [List.mem_map] at hrg
      obtain ⟨r, -, rfl⟩ := hrg
      exact formatRegistration_trainee_noPassword _ _ _ htr

/-- C5 (witness): the trainee returned by a concrete successful login
carries no `password` key. -/
theorem trainee_password_redaction_witness :
    noPasswordKey (CreateSessionResp.trainee ⟨"tok", formatTrainee trA⟩) :=
  (trainee_password_redaction envT st0).1 ⟨"a@x.com", "pw"⟩
    ⟨"tok", formatTrainee trA⟩ (by decide)

/-- C7 (witness): duplicating `trA`'s email with a well-formed request. -/
theorem createTrainee_duplicate_email_witness :
    createTrainee st0 ⟨"B", "a@x.com", "pw2", "UTC"⟩ "u2" 2000 =
      (st0, .error ⟨Status.ALREADY_EXISTS, "Email is already in use"⟩) :=
  createTrainee_duplicate_email st0 ⟨"B", "a@x.com", "pw2", "UTC"⟩ "u2" 2000
    (by decide) (by decide) (by decide) ⟨trA, by simp [st0], rfl⟩

/-- An absent or empty-string optional field leaves the old value. -/
theorem patchStr_keep (old : String) (field : Option String)
    (h : field = none ∨ field = some "") : patchStr old field = old := by
  rcases h with h | h <;> simp [patchStr, h]

/-- C8: the partial-update operations on Trainee, Workout, and Registration
treat an absent (or, for string fields, empty-string) optional field as
"leave unchanged" rather than as a validation failure — the three Update*
handlers never produce `INVALID_ARGUMENT` — and an update with every
optional field absent rewrites nothing but `updatedAt`; in particular
`UpdateTrainee` on an existing row with an authenticated token succeeds and
stores the old row with only `updatedAt` refreshed. -/
theorem sparse_patch_update (env : Env) (s : State) :
    (∀ (t : Trainee) (req : UpdateTraineeReq) (now : Int),
      ((req.name = none ∨ req.name = some "") →
        (applyTraineeUpdate t req now).name = t.name) ∧
      ((req.email = none ∨ req.email = some "") →
        (applyTraineeUpdate t req now).email = t.email) ∧
      ((req.password = none ∨ req.password = some "") →
        (applyTraineeUpdate t req now).password = t.password) ∧
      ((req.timezone = none ∨ req.timezone = some "") →
        (applyTraineeUpdate t req now).timezone = t.timezone)) ∧
    (∀ (t : Trainee) (tok tid : String) (now : Int),
      applyTraineeUpdate t ⟨tok, tid, none, none, none, none⟩ now =
        { t with updatedAt := now }) ∧
    (∀ (w : Workout) (req : UpdateWorkoutReq) (now : Int),
      ((req.name = none ∨ req.name = some "") →
        (applyWorkoutUpdate w req now).name = w.name) ∧
      (req.duration = none →
        (applyWorkoutUpdate w req now).duration = w.duration) ∧
      ((req.description = none ∨ req.description = some "") →
        (applyWorkoutUpdate w req now).description = w.description) ∧
      ((req.color = none ∨ req.color = some "") →
        (applyWorkoutUpdate w req now).color = w.color)) ∧
    (∀ (w : Workout) (tok wid : String) (now : Int),
      applyWorkoutUpdate w ⟨tok, wid, none, none, none, none⟩ now =
        { w with updatedAt := now }) ∧
    (∀ (r : Registration) (req : UpdateRegistrationReq) (now : Int),
      ((req.event_id = none ∨ req.event_id = some "") →
        (applyRegistrationUpdate r req now).eventId = r.eventId) ∧
      ((req.user_id = none ∨ req.user_id = some "") →
        (applyRegistrationUpdate r req now).userId = r.userId) ∧
      ((req.invitee_email = none ∨ req.invitee_email = some "") →
        (applyRegistrationUpdate r req now).inviteeEmail = r.inviteeEmail) ∧
      (req.start_time = none →
        (applyRegistrationUpdate r req now).startTime = r.startTime) ∧
      (req.end_time = none →
        (applyRegistrationUpdate r req now).endTime = r.endTime) ∧
      ((req.status = none ∨ req.status = some "") →
        (applyRegistrationUpdate r req now).status = r.status)) ∧
    (∀ (r : Registration) (tok rid : String) (now : Int),
      applyRegistrationUpdate r ⟨tok, rid, none, none, none, none, none, none⟩ now =
        { r with updatedAt := now }) ∧
    (∀ (req : UpdateTraineeReq) (now : Int) (e : GrpcError),
      (updateTrainee env s req now).2 = .error e →
      e.code ≠ Status.INVALID_ARGUMENT) ∧
    (∀ (req : UpdateWorkoutReq) (now : Int) (e : GrpcError),
      (updateWorkout env s req now).2 = .error e →
      e.code ≠ Status.INVALID_ARGUMENT) ∧
    (∀ (req : UpdateRegistrationReq) (now : Int) (e : GrpcError),
      (updateRegistration env s req now).2 = .error e →
      e.code ≠ Status.INVALID_ARGUMENT) ∧
    (∀ (tok tid : String) (now : Int) (c : Claims) (t : Trainee),
      authenticateToken env s.revoked tok = .ok c →
      s.trainees.find? (fun u => u.id = tid) = some t →
      (updateTrainee env s ⟨tok, tid, none, none, none, none⟩ now).2 =
        .ok ⟨formatTrainee { t with updatedAt := now }⟩) := by
  refine ⟨?_, ?_, ?_, ?_, ?_, ?_, ?_, ?_, ?_, ?_⟩
  · intro t req now
    exact ⟨fun h => patchStr_keep _ _ h, fun h => patchStr_keep _ _ h,
      fun h => patchStr_keep _ _ h, fun h => patchStr_keep _ _ h⟩
  · intro t tok tid now
    rfl
  · intro w req now
    refine ⟨fun h => patchStr_keep _ _ h, fun h => ?_,
      fun h => patchStr_keep _ _ h, fun h => patchStr_keep _ _ h⟩
    simp [applyWorkoutUpdate, h]
  · intro w tok wid now
    rfl
  · intro r req now
    refine ⟨fun h => patchStr_keep _ _ h, fun h => patchStr_keep _ _ h,
      fun h => patchStr_keep _ _ h, fun h => ?_, fun h => ?_,
      fun h => patchStr_keep _ _ h⟩
    · simp [applyRegistrationUpdate, h]
    · simp [applyRegistrationUpdate, h]
  · intro r tok rid now
    rfl
  · intro req now e h
    unfold updateTrainee at h
    split at h
    · dsimp only at h
      injection h with h
      subst h
      decide
    · split at h
      · dsimp only at h
        injection h with h
        subst h
        decide
      · dsimp only at h
        cases h
  · intro req now e h
    unfold updateWorkout at h
    split at h
    · dsimp only at h
      injection h with h
      subst h
      decide
    · split at h
      · dsimp only at h
        injection h with h
        subst h
        decide
      · dsimp only at h
        cases h
  · intro req now e h
    unfold updateRegistration at h
    split at h
    · dsimp only at h
      injection h with h
      subst h
      decide
    · split at h
      · dsimp only at h
        injection h with h
        subst h
        decide
      · dsimp only at h
        cases h
  · intro tok tid now c t hauth hfind
    unfold updateTrainee
    rw [hauth]
    dsimp only
    rw [hfind]
    rfl

/-- C8 (witness): an empty-string email and an all-absent trainee update at
concrete rows. -/
theorem sparse_patch_update_witness :
    (applyTraineeUpdate trA ⟨"tok", "u1", none, some "", none, none⟩ 2000).email
        = trA.email ∧
    (updateTrainee envT st0 ⟨"tok", "u1", none, none, none, none⟩ 2000).2 =
      .ok ⟨formatTrainee { trA with updatedAt := 2000 }⟩ :=
  ⟨((sparse_patch_update envT st0).1 trA
      ⟨"tok", "u1", none, some "", none, none⟩ 2000).2.1 (Or.inr rfl),
   (sparse_patch_update envT st0).2.2.2.2.2.2.2.2.2 "tok" "u1" 2000
      ⟨"u1", "a@x.com"⟩ trA (by decide) (by decide)⟩

/-- C9 (counterexample): an authenticated `CreateRoutine` with a non-empty
time-slot collection but an absent `user_id` fails with `INVALID_ARGUMENT`:
the routine-create required set also contains `user_id`, contrary to the
claimed required-field sets. -/
theorem createRoutine_user_id_required :
    createRoutine envT st0 ⟨"tok", "", [slotM]⟩ "r9" 2000 =
      (st0, .error ⟨Status.INVALID_ARGUMENT,
        "user_id and availability are required"⟩) ∧
    ([slotM] : List TimeSlot) ≠ [] := by
  exact ⟨rfl, by decide⟩

/-- C9 (amended): on an authenticated token (where one is taken), each
validated operation fails with `INVALID_ARGUMENT` and the message naming the
operation's required fields exactly when one of them is absent, with the
required sets: session create needs email+password; trainee create needs
name+email+password (timezone unchecked); workout create needs name and a
non-zero duration; routine create needs user id AND a non-empty time-slot
collection; routine update needs a non-empty time-slot collection;
registration create needs event id, trainee id, invitee email, start time. -/
theorem required_fields_validation (env : Env) (s : State) (tok : String)
    (c : Claims) (hauth : authenticateToken env s.revoked tok = .ok c) :
    (∀ email password : String,
      (createSession env s ⟨email, password⟩ =
        .error ⟨Status.INVALID_ARGUMENT, "Email and password are required"⟩) ↔
      (email = "" ∨ password = "")) ∧
    (∀ (req : CreateTraineeReq) newId now,
      ((createTrainee s req newId now).2 =
        .error ⟨Status.INVALID_ARGUMENT,
          "Name, email, and password are required"⟩) ↔
      (req.name = "" ∨ req.email = "" ∨ req.password = "")) ∧
    (∀ (name : String) (duration : Int) (description color newId : String)
        (now : Int),
      ((createWorkout env s ⟨tok, name, duration, description, color⟩
          newId now).2 =
        .error ⟨Status.INVALID_ARGUMENT, "Name and duration are required"⟩) ↔
      (name = "" ∨ duration = 0)) ∧
    (∀ (uid : String) (avail : List TimeSlot) (newId : String) (now : Int),
      ((createRoutine env s ⟨tok, uid, avail⟩ newId now).2 =
        .error ⟨Status.INVALID_ARGUMENT,
          "user_id and availability are required"⟩) ↔
      (uid = "" ∨ avail = [])) ∧
    (∀ (tid : String) (avail : List TimeSlot) (now : Int),
      ((updateTraineeRoutine env s ⟨tok, tid, avail⟩ now).2 =
        .error ⟨Status.INVALID_ARGUMENT, "availability is required"⟩) ↔
      avail = []) ∧
    (∀ (eid uid email2 : String) (st et : Option TimestampMsg)
        (sta newId : String) (now : Int),
      ((createRegistration env s ⟨tok, eid, uid, email2, st, et, sta⟩
          newId now).2 =
        .error ⟨Status.INVALID_ARGUMENT,
          "event_id, user_id, invitee_email, and start_time are required"⟩) ↔
      (eid = "" ∨ uid = "" ∨ email2 = "" ∨ st = none)) := by
  refine ⟨?_, ?_, ?_, ?_, ?_, ?_⟩
  · intro email password
    unfold createSession
    by_cases hc : email = "" ∨ password = ""
    · simp [hc]
    · rw [if_neg hc]
      constructor
      · intro h
        split at h
        · simp at h
        · split at h
          · cases h
          · simp at h
      · intro h
        exact absurd h hc
  · intro req newId now
    unfold createTrainee
    by_cases hc : req.name = "" ∨ req.email = "" ∨ req.password = ""
    · simp [hc]
    · rw [if_neg hc]
      constructor
      · intro h
        split at h
        · simp at h
        · simp at h
      · intro h
        exact absurd h hc
  · intro name duration description color newId now
    unfold createWorkout
    rw [hauth]
    dsimp only
    by_cases hc : name = "" ∨ duration = 0
    · simp [hc]
    · rw [if_neg hc]
      constructor
      · intro h
        simp at h
      · intro h
        exact absurd h hc
  · intro uid avail newId now
    unfold createRoutine
    rw [hauth]
    dsimp only
    by_cases hc : uid = "" ∨ avail = []
    · simp [hc]
    · rw [if_neg hc]
      constructor
      · intro h
        split at h
        · simp at h
        · simp at h
      · intro h
        exact absurd h hc
  · intro tid avail now
    unfold updateTraineeRoutine
    rw [hauth]
    dsimp only
    by_cases hc : avail = []
    · simp [hc]
    · rw [if_neg hc]
      constructor
      · intro h
        split at h
        · simp at h
        · split at h
          · simp at h
          · simp at h
      · intro h
        exact absurd h hc
  · intro eid uid email2 st et sta newId now
    unfold createRegistration
    rw [hauth]
    dsimp only
    cases st with
    | none => simp
    | some st' =>
      dsimp only
      by_cases hc : eid = "" ∨ uid = "" ∨ email2 = ""
      · simp [hc]
      · rw [if_neg hc]
        constructor
        · intro h
          split at h
          · simp at h
          · simp at h
        · intro h
          rcases h with h | h | h | h
          · exact absurd (Or.inl h) hc
          · exact absurd (Or.inr (Or.inl h)) hc
          · exact absurd (Or.inr (Or.inr h)) hc
          · cases h

/-- C9 (witness): routine create with an empty time-slot collection fails
with the naming `INVALID_ARGUMENT` message. -/
theorem required_fields_validation_witness :
    (createRoutine envT st0 ⟨"tok", "u1", []⟩ "r9" 2000).2 =
      .error ⟨Status.INVALID_ARGUMENT,
        "user_id and availability are required"⟩ :=
  ((required_fields_validation envT st0 "tok" ⟨"u1", "a@x.com"⟩
      (by decide)).2.2.2.1 "u1" [] "r9" 2000).mpr (Or.inr rfl)

end GymGrpc
